import Mathlib

/-
Verification development for the cross-chain USDC bridge orchestrator
(src/components/tabs/BridgeTab.tsx).  Monetary quantities are 6-decimal
USDC base units, modelled as `Int` mirroring the TypeScript `bigint`
values produced by `parseUnits(_, 6)`.  On-chain round trips (view calls,
transaction submissions, receipt waits) are modelled as `Except`-valued
oracle fields of a world record; the executor is a pure function from the
world to the list of emitted requests, the final result, and the final
history list.
-/

deriving instance DecidableEq for Except

namespace Arc

namespace Bridge

/-- Addresses are kept abstract as strings; the executor only moves them
between calls and compares none of them. -/
abbrev Addr := String

/-- Transaction hashes returned by wallet submissions. -/
abbrev TxHash := String

/-- Receipt status as reported by waitForTransactionReceipt: the source
checks receipt.status !== "success". -/
inductive ReceiptStatus where
  | success
  | reverted
deriving DecidableEq, Repr

/-- Fee configuration read from the environment inside computeMaxFee:
NEXT_PUBLIC_MAX_FEE_BPS (default "500") and NEXT_PUBLIC_MAX_FEE_USDC_CAP
(default "0", parsed at 6 decimals, 0 meaning no cap). -/
structure FeeConfig where
  maxFeeBps : Int
  maxFeeUsdcCap : Int
deriving DecidableEq, Repr

/-- Per-destination forwarding-fee floor from computeMaxFee
(BridgeTab.tsx line 407): parseUnits("1.25", 6) when the destination
domain is 0 and parseUnits("0.2", 6) otherwise. -/
def minForwardFee (destinationDomain : Nat) : Int :=
  if destinationDomain = 0 then 1250000 else 200000

/-- CCTP domain of the home (ARC) chain,
Number(process.env.NEXT_PUBLIC_ARC_CCTP_DOMAIN || "26") with the default
applied (BridgeTab.tsx line 586). -/
def arcCctpDomain : Nat := 26

/-- Fee candidate of computeMaxFee before the final amount bound
(BridgeTab.tsx lines 405-414): the percentage fee from the basis points,
raised to the per-destination floor, then clamped to the optional global
cap.  The source takes the amount as a decimal string and parses it; here
the already-parsed amount = parseUnits(amountUsdcStr, 6) is the
argument. -/
def maxFeeCandidate (cfg : FeeConfig) (amount : Int) (destinationDomain : Nat) : Int :=
  let minFwd := minForwardFee destinationDomain
  let maxFeeFromPct := amount * cfg.maxFeeBps / 10000
  let maxFeeToUse := if maxFeeFromPct < minFwd then minFwd else maxFeeFromPct
  if cfg.maxFeeUsdcCap > 0 ∧ maxFeeToUse > cfg.maxFeeUsdcCap then cfg.maxFeeUsdcCap
  else maxFeeToUse

/-- Final amount bound of computeMaxFee (lines 415-417): the candidate is
rejected with the thrown Error (the Except.error case) when it exceeds
amount - 1. -/
def computeMaxFee (cfg : FeeConfig) (amount : Int) (destinationDomain : Nat) :
    Except String Int :=
  let maxFeeToUse := maxFeeCandidate cfg amount destinationDomain
  let maxFeeCap := amount - 1
  if maxFeeToUse > maxFeeCap then
    Except.error "Amount is too small for maxFee constraints."
  else
    Except.ok maxFeeToUse

/-- Protocol-minimum adjustment from onBridge (BridgeTab.tsx lines
474-489).  The getMinFeeAmount view call either throws, in which case the
empty catch block swallows the error and maxFee is left unchanged, or
returns minProtocolFee; when that exceeds maxFee the fee is bumped to
minProtocolFee * 110 / 100 and clamped to amount - 1 if in excess. -/
def adjustForProtocolMin (amount maxFee : Int) (minFeeCall : Except String Int) :
    Int :=
  match minFeeCall with
  | Except.error _ => maxFee
  | Except.ok minProtocolFee =>
    if minProtocolFee > maxFee then
      let bufferedMinFee := minProtocolFee * 110 / 100
      let maxFeeCap := amount - 1
      if bufferedMinFee > maxFeeCap then maxFeeCap else bufferedMinFee
    else maxFee

/-- Full fee bound for an ARC to external transfer: computeMaxFee
(line 472), the protocol-minimum adjustment (lines 474-489), then the
final guard maxFee >= amount (line 491). -/
def quoteHomeToExternal (cfg : FeeConfig) (amount : Int) (destinationDomain : Nat)
    (minFeeCall : Except String Int) : Except String Int :=
  match computeMaxFee cfg amount destinationDomain with
  | Except.error e => Except.error e
  | Except.ok maxFee0 =>
    let maxFee := adjustForProtocolMin amount maxFee0 minFeeCall
    if maxFee ≥ amount then
      Except.error "Invalid fee: maxFee must be less than amount"
    else
      Except.ok maxFee

/-- Fee bound for an external to ARC transfer (lines 586-589):
computeMaxFee against the ARC domain followed by the same guard; this
branch makes no getMinFeeAmount view call. -/
def quoteExternalToHome (cfg : FeeConfig) (amount : Int) (arcDomain : Nat) :
    Except String Int :=
  match computeMaxFee cfg amount arcDomain with
  | Except.error e => Except.error e
  | Except.ok maxFee =>
    if maxFee ≥ amount then
      Except.error "Invalid fee: maxFee must be less than amount"
    else
      Except.ok maxFee

/-- Direction tag stored in a history record (the BridgeHistoryItem
direction field, BridgeTab.tsx lines 51-58). -/
inductive Direction where
  | ARC_TO_OTHER
  | OTHER_TO_ARC
deriving DecidableEq, Repr

/-- One entry of the bridge history (BridgeHistoryItem, lines 51-58).
The source fields from and to are Lean keywords and are embedded as fromAddr and toAddr. -/
structure HistoryRecord where
  ts : Int
  fromAddr : Addr
  toAddr : Addr
  txHash : TxHash
  memo : Option String
  direction : Option Direction
deriving DecidableEq, Repr

/-- Externally visible requests the executor issues, in program order.
readRouterConfig covers the five parallel view reads of lines 455-463;
submit actions are walletClient.writeContract submissions.  Static
arguments not needed by any claim (hook data, minimum finality threshold,
destination caller, the bytes32 encoding of the recipient) are carried by
the burn call in the source but omitted from the action payload. -/
inductive Action where
  | readRouterConfig
  | readMinFee (amount : Int)
  | readBalance (token : Addr) (owner : Addr)
  | readAllowance (token : Addr) (owner spender : Addr)
  | submitApprove (token : Addr) (spender : Addr) (amount : Int)
  | submitFeeTransfer (token : Addr) (collector : Addr) (amount : Int)
  | submitBurn (messenger : Addr) (amount : Int) (destinationDomain : Nat)
      (recipient : Addr) (maxFee : Int)
deriving DecidableEq, Repr

/-- An action that submits a transaction through the wallet (a
writeContract call), as opposed to a read-only view call. -/
def Action.isSubmission : Action → Bool
  | Action.submitApprove _ _ _ => true
  | Action.submitFeeTransfer _ _ _ => true
  | Action.submitBurn _ _ _ _ _ => true
  | _ => false

/-- An ERC-20 approve submission. -/
def Action.isApprove : Action → Bool
  | Action.submitApprove _ _ _ => true
  | _ => false

/-- A service-fee ERC-20 transfer submission. -/
def Action.isFeeTransfer : Action → Bool
  | Action.submitFeeTransfer _ _ _ => true
  | _ => false

/-- A depositForBurnWithHook submission. -/
def Action.isBurn : Action → Bool
  | Action.submitBurn _ _ _ _ _ => true
  | _ => false

/-- Payload-free kinds of the five on-chain steps named by the spec for
the ARC to external sequence, used to state their relative order. -/
inductive StepKind where
  | configRead
  | balanceRead
  | allowanceRead
  | feeTransfer
  | burn
deriving DecidableEq, Repr

/-- Projection of an action onto the five named step kinds; the
getMinFeeAmount view read and the approve leg are not in the spec's
five-step list and map to none. -/
def Action.stepKind : Action → Option StepKind
  | Action.readRouterConfig => some StepKind.configRead
  | Action.readBalance _ _ => some StepKind.balanceRead
  | Action.readAllowance _ _ _ => some StepKind.allowanceRead
  | Action.submitFeeTransfer _ _ _ => some StepKind.feeTransfer
  | Action.submitBurn _ _ _ _ _ => some StepKind.burn
  | _ => none

/-- Router configuration read from the five ROUTER_ABI view calls
(lines 455-469). -/
structure RouterConfig where
  usdc : Addr
  feeCollector : Addr
  serviceFee : Int
  destinationCaller : String
  tokenMessengerV2 : Addr
deriving DecidableEq, Repr

/-- Outcomes of every on-chain round trip the ARC to external branch can
perform, fixed up front: each field is what the corresponding await would
produce if reached (Except.error for a throw / user rejection). -/
structure HomeWorld where
  routerConfig : Except String RouterConfig
  minFeeCall : Except String Int
  balance : Except String Int
  allowance : Except String Int
  approveSubmit : Except String TxHash
  approveReceipt : Except String ReceiptStatus
  feeSubmit : Except String TxHash
  feeReceipt : Except String ReceiptStatus
  burnSubmit : Except String TxHash
  burnReceipt : Except String ReceiptStatus
deriving Repr

/-- Per-request inputs of the ARC to external branch, after parsing and
validation: amount = parseUnits(amountInt, 6), the destination domain,
sender (the connected address), resolved recipient, the raw memo string
and the Date.now() timestamp used for the history record. -/
structure HomeParams where
  amount : Int
  destDomain : Nat
  sender : Addr
  recipient : Addr
  memo : String
  now : Int
deriving DecidableEq, Repr

/-- What a run of the executor produces: the ordered list of issued
on-chain requests, the overall result (Except.error is a thrown error
caught by the outer try/catch), and the final history list given the
initial one. -/
structure ExecOutcome where
  trace : List Action
  result : Except String TxHash
  history : List HistoryRecord
deriving DecidableEq, Repr

/-- Burn leg of the ARC to external branch (lines 531-563): submit
depositForBurnWithHook, wait for its receipt, require status success, and
only then prepend the history record with direction ARC_TO_OTHER. -/
def burnPhaseHome (p : HomeParams) (rc : RouterConfig) (maxFee : Int)
    (w : HomeWorld) (history0 : List HistoryRecord) : ExecOutcome :=
  let act := Action.submitBurn rc.tokenMessengerV2 p.amount p.destDomain p.recipient maxFee
  match w.burnSubmit with
  | Except.error e => ⟨[act], Except.error e, history0⟩
  | Except.ok burnTx =>
    match w.burnReceipt with
    | Except.error e => ⟨[act], Except.error e, history0⟩
    | Except.ok st =>
      if st ≠ ReceiptStatus.success then
        ⟨[act], Except.error "burn+message transaction reverted", history0⟩
      else
        ⟨[act], Except.ok burnTx,
          { ts := p.now, fromAddr := p.sender, toAddr := p.recipient, txHash := burnTx,
            memo := if p.memo = "" then none else some p.memo,
            direction := some Direction.ARC_TO_OTHER } :: history0⟩

/-- Service-fee leg of the ARC to external branch (lines 522-529): submit
the flat service-fee transfer to the fee collector and wait for its
receipt.  The receipt status is not inspected by the source; only a throw
of the wait aborts.  On success control passes to the burn leg. -/
def feePhaseHome (p : HomeParams) (rc : RouterConfig) (maxFee : Int)
    (w : HomeWorld) (history0 : List HistoryRecord) : ExecOutcome :=
  let act := Action.submitFeeTransfer rc.usdc rc.feeCollector rc.serviceFee
  match w.feeSubmit with
  | Except.error e => ⟨[act], Except.error e, history0⟩
  | Except.ok _ =>
    match w.feeReceipt with
    | Except.error e => ⟨[act], Except.error e, history0⟩
    | Except.ok _ =>
      let o := burnPhaseHome p rc maxFee w history0
      ⟨act :: o.trace, o.result, o.history⟩

/-- The ARC to external branch of onBridge (lines 444-563): read the
router configuration, computeMaxFee, read getMinFeeAmount and adjust,
guard maxFee >= amount, check balance against amount + serviceFee, check
the messenger allowance and approve only when it is below the amount,
then the service-fee and burn legs. -/
def executeHomeToExternal (cfg : FeeConfig) (p : HomeParams) (w : HomeWorld)
    (history0 : List HistoryRecord) : ExecOutcome :=
  match w.routerConfig with
  | Except.error e => ⟨[Action.readRouterConfig], Except.error e, history0⟩
  | Except.ok rc =>
    match computeMaxFee cfg p.amount p.destDomain with
    | Except.error e => ⟨[Action.readRouterConfig], Except.error e, history0⟩
    | Except.ok maxFee0 =>
      let pre2 := [Action.readRouterConfig, Action.readMinFee p.amount]
      let maxFee := adjustForProtocolMin p.amount maxFee0 w.minFeeCall
      if maxFee ≥ p.amount then
        ⟨pre2, Except.error "Invalid fee: maxFee must be less than amount", history0⟩
      else
        let pre3 := pre2 ++ [Action.readBalance rc.usdc p.sender]
        match w.balance with
        | Except.error e => ⟨pre3, Except.error e, history0⟩
        | Except.ok bal =>
          if bal < p.amount + rc.serviceFee then
            ⟨pre3, Except.error "Insufficient USDC balance", history0⟩
          else
            let pre4 := pre3 ++ [Action.readAllowance rc.usdc p.sender rc.tokenMessengerV2]
            match w.allowance with
            | Except.error e => ⟨pre4, Except.error e, history0⟩
            | Except.ok tmAllowance =>
              if tmAllowance < p.amount then
                let appr := Action.submitApprove rc.usdc rc.tokenMessengerV2 p.amount
                match w.approveSubmit with
                | Except.error e => ⟨pre4 ++ [appr], Except.error e, history0⟩
                | Except.ok _ =>
                  match w.approveReceipt with
                  | Except.error e => ⟨pre4 ++ [appr], Except.error e, history0⟩
                  | Except.ok _ =>
                    let o := feePhaseHome p rc maxFee w history0
                    ⟨pre4 ++ appr :: o.trace, o.result, o.history⟩
              else
                let o := feePhaseHome p rc maxFee w history0
                ⟨pre4 ++ o.trace, o.result, o.history⟩

/-- Full onBridge for an ARC source: the shared prelude (lines 420-441:
connection check, validateAmount/validateMemo/validateRecipient, and the
wrong-network guard that switches and then always throws) is abstracted
as one Except-valued outcome since any of its errors aborts before the
branch; then the ARC to external branch runs. -/
def onBridgeHome (cfg : FeeConfig) (p : HomeParams)
    (preludeOutcome : Except String Unit) (w : HomeWorld)
    (history0 : List HistoryRecord) : ExecOutcome :=
  match preludeOutcome with
  | Except.error e => ⟨[], Except.error e, history0⟩
  | Except.ok _ => executeHomeToExternal cfg p w history0

/-- Environment-supplied addresses for the external source chain
(lines 577-584: NEXT_PUBLIC_<key>_USDC / _USDC_ADDRESS and
NEXT_PUBLIC_<key>_TOKEN_MESSENGER_V2; none when unset) and the ARC CCTP
domain (line 586, default 26). -/
structure ExternalEnv where
  srcUsdc : Option Addr
  srcTokenMessengerV2 : Option Addr
  arcDomain : Nat
deriving DecidableEq, Repr

/-- Outcomes of the on-chain round trips of the external to ARC branch. -/
structure ExternalWorld where
  balance : Except String Int
  allowance : Except String Int
  approveSubmit : Except String TxHash
  approveReceipt : Except String ReceiptStatus
  burnSubmit : Except String TxHash
  burnReceipt : Except String ReceiptStatus
deriving Repr

/-- Per-request inputs of the external to ARC branch. -/
structure ExternalParams where
  amount : Int
  sender : Addr
  recipient : Addr
  memo : String
  now : Int
deriving DecidableEq, Repr

/-- Burn leg of the external to ARC branch (lines 618-653): submit
depositForBurnWithHook on the source chain with the destination caller
left as the zero bytes32, wait for the receipt, require status success,
then prepend the history record.  The record's direction field is the
literal "ARC_TO_OTHER" written at line 650 of the source, even though
this is the other-to-ARC branch. -/
def burnPhaseExternal (p : ExternalParams) (messenger : Addr) (arcDomain : Nat)
    (maxFee : Int) (w : ExternalWorld) (history0 : List HistoryRecord) : ExecOutcome :=
  let act := Action.submitBurn messenger p.amount arcDomain p.recipient maxFee
  match w.burnSubmit with
  | Except.error e => ⟨[act], Except.error e, history0⟩
  | Except.ok burnTx =>
    match w.burnReceipt with
    | Except.error e => ⟨[act], Except.error e, history0⟩
    | Except.ok st =>
      if st ≠ ReceiptStatus.success then
        ⟨[act], Except.error "burn+message transaction reverted", history0⟩
      else
        ⟨[act], Except.ok burnTx,
          { ts := p.now, fromAddr := p.sender, toAddr := p.recipient, txHash := burnTx,
            memo := if p.memo = "" then none else some p.memo,
            direction := some Direction.ARC_TO_OTHER } :: history0⟩

/-- The external to ARC branch of onBridge (lines 574-653): resolve the
source-chain USDC and TokenMessengerV2 addresses from the environment,
computeMaxFee against the ARC domain with the maxFee >= amount guard, a
balance check against the amount alone (no flat service fee in this
direction), the allowance check with conditional approve, then the burn
leg.  Error strings for the missing-environment throws are abbreviated
from the source's Vietnamese messages. -/
def executeExternalToHome (cfg : FeeConfig) (env : ExternalEnv) (p : ExternalParams)
    (w : ExternalWorld) (history0 : List HistoryRecord) : ExecOutcome :=
  match env.srcUsdc with
  | none => ⟨[], Except.error "Missing source chain USDC address", history0⟩
  | some srcUsdc =>
    match env.srcTokenMessengerV2 with
    | none => ⟨[], Except.error "Missing source chain TokenMessengerV2 address", history0⟩
    | some messenger =>
      match quoteExternalToHome cfg p.amount env.arcDomain with
      | Except.error e => ⟨[], Except.error e, history0⟩
      | Except.ok maxFee =>
        let pre := [Action.readBalance srcUsdc p.sender]
        match w.balance with
        | Except.error e => ⟨pre, Except.error e, history0⟩
        | Except.ok bal =>
          if bal < p.amount then
            ⟨pre, Except.error "Insufficient USDC balance", history0⟩
          else
            let pre2 := pre ++ [Action.readAllowance srcUsdc p.sender messenger]
            match w.allowance with
            | Except.error e => ⟨pre2, Except.error e, history0⟩
            | Except.ok allowance =>
              if allowance < p.amount then
                let appr := Action.submitApprove srcUsdc messenger p.amount
                match w.approveSubmit with
                | Except.error e => ⟨pre2 ++ [appr], Except.error e, history0⟩
                | Except.ok _ =>
                  match w.approveReceipt with
                  | Except.error e => ⟨pre2 ++ [appr], Except.error e, history0⟩
                  | Except.ok _ =>
                    let o := burnPhaseExternal p messenger env.arcDomain maxFee w history0
                    ⟨pre2 ++ appr :: o.trace, o.result, o.history⟩
              else
                let o := burnPhaseExternal p messenger env.arcDomain maxFee w history0
                ⟨pre2 ++ o.trace, o.result, o.history⟩

/-- Full onBridge for an external source, with the shared prelude
abstracted exactly as in onBridgeHome. -/
def onBridgeExternal (cfg : FeeConfig) (env : ExternalEnv) (p : ExternalParams)
    (preludeOutcome : Except String Unit) (w : ExternalWorld)
    (history0 : List HistoryRecord) : ExecOutcome :=
  match preludeOutcome with
  | Except.error e => ⟨[], Except.error e, history0⟩
  | Except.ok _ => executeExternalToHome cfg env p w history0

/-- Requests the network reconciler can issue to the injected wallet:
wallet_switchEthereumChain and wallet_addEthereumChain with the payload of
lines 261-276 (name, native currency, RPC URLs, optional explorer URLs).
Chain ids are carried as numbers; the hex encoding of line 241 is
lossless. -/
inductive WalletReq where
  | switchChain (chainId : Nat)
  | addChain (chainId : Nat) (chainName : String) (nativeName nativeSymbol : String)
      (nativeDecimals : Nat) (rpcUrls : List String) (explorerUrls : Option (List String))
deriving DecidableEq, Repr

/-- A wallet_switchEthereumChain request. -/
def WalletReq.isSwitch : WalletReq → Bool
  | WalletReq.switchChain _ => true
  | _ => false

/-- A wallet_addEthereumChain request. -/
def WalletReq.isAdd : WalletReq → Bool
  | WalletReq.addChain _ _ _ _ _ _ _ => true
  | _ => false

/-- Error a wallet request rejects with: the numeric code (4902 means the
chain is unknown to the wallet, line 249) and the message. -/
structure WalletErr where
  code : Option Int
  msg : String
deriving DecidableEq, Repr

/-- Outcomes of the wallet prompts the switch flow can trigger. -/
structure WalletWorld where
  switchResult : Except WalletErr Unit
  addResult : Except WalletErr Unit
deriving Repr

/-- Static context of the switch flow: the resolved source chain id
(0 when the environment is missing it, lines 199-202), whether an
injected wallet exists, the display label, and the RPC / explorer URLs
resolved from the environment. -/
structure NetEnv where
  srcChainIdResolved : Nat
  hasInjectedWallet : Bool
  sourceLabel : String
  rpcUrl : Option String
  explorerUrl : Option String
deriving DecidableEq, Repr

/-- Shallow embedding of switchToSelectedSource (lines 232-281): throw
when the chain id is unresolved or no wallet is injected, request the
switch, and on a code-4902 rejection request wallet_addEthereumChain with
the chain name, native currency ("ETH", 18 decimals), the RPC URL from
the environment (throwing when it is missing) and the optional explorer
URL.  No further request follows the add.  Returns the issued requests in
order plus the overall outcome. -/
def switchToSelectedSource (env : NetEnv) (w : WalletWorld) :
    List WalletReq × Except String Unit :=
  if env.srcChainIdResolved = 0 then
    ([], Except.error "Missing source chain id")
  else if ¬ env.hasInjectedWallet then
    ([], Except.error "No injected wallet found")
  else
    match w.switchResult with
    | Except.ok _ => ([WalletReq.switchChain env.srcChainIdResolved], Except.ok ())
    | Except.error se =>
      if se.code = some 4902 then
        match env.rpcUrl with
        | none =>
          ([WalletReq.switchChain env.srcChainIdResolved],
           Except.error "Missing RPC URL for selected source chain")
        | some rpc =>
          ([WalletReq.switchChain env.srcChainIdResolved,
            WalletReq.addChain env.srcChainIdResolved env.sourceLabel "ETH" "ETH" 18 [rpc]
              (env.explorerUrl.map (fun u => [u]))],
           match w.addResult with
           | Except.ok _ => Except.ok ()
           | Except.error ae => Except.error ae.msg)
      else
        ([WalletReq.switchChain env.srcChainIdResolved], Except.error se.msg)

/-- Shallow embedding of the auto-switch effect body (run, lines
288-336), the ensureOnChain of the spec: return issuing nothing when
disconnected, when the source chain id is unresolved, when the wallet is
already on the target network, or when the RPC URL is missing (the
status-message paths); otherwise run switchToSelectedSource.  Returns the
wallet requests issued, in order. -/
def ensureOnChainRun (isConnected : Bool) (currentChainId : Option Nat)
    (env : NetEnv) (w : WalletWorld) : List WalletReq :=
  if ¬ isConnected then []
  else if env.srcChainIdResolved = 0 then []
  else if currentChainId = some env.srcChainIdResolved then []
  else
    match env.rpcUrl with
    | none => []
    | some _ => (switchToSelectedSource env w).1

/-- Default-environment fee configuration: 500 basis points, no global
cap. -/
def cfg500 : FeeConfig := { maxFeeBps := 500, maxFeeUsdcCap := 0 }

/-- Concrete router configuration used by the closed evaluations. -/
def rcW : RouterConfig :=
  { usdc := "0xa1", feeCollector := "0xc0", serviceFee := 10000,
    destinationCaller := "0xdc", tokenMessengerV2 := "0xtm" }

/-- Fully successful ARC to external world; the zero allowance forces the
approve leg. -/
def homeWorldOk : HomeWorld :=
  { routerConfig := Except.ok rcW, minFeeCall := Except.ok 50000,
    balance := Except.ok 100000000, allowance := Except.ok 0,
    approveSubmit := Except.ok "0xa", approveReceipt := Except.ok ReceiptStatus.success,
    feeSubmit := Except.ok "0xf", feeReceipt := Except.ok ReceiptStatus.success,
    burnSubmit := Except.ok "0xb", burnReceipt := Except.ok ReceiptStatus.success }

/-- Same world with an allowance already covering the amount. -/
def homeWorldAllowanceOk : HomeWorld :=
  { homeWorldOk with allowance := Except.ok 15000000 }

/-- Same world with a getMinFeeAmount view call that throws. -/
def homeWorldMinFeeErr : HomeWorld :=
  { homeWorldOk with minFeeCall := Except.error "minFee revert" }

/-- Same world with a burn transaction that reverts on-chain. -/
def homeWorldBurnReverted : HomeWorld :=
  { homeWorldOk with burnReceipt := Except.ok ReceiptStatus.reverted }

/-- Concrete ARC to external transfer: 10 USDC to destination domain 6. -/
def pHome : HomeParams :=
  { amount := 10000000, destDomain := 6, sender := "0xs", recipient := "0xr",
    memo := "", now := 1700000000 }

/-- Concrete external source-chain environment. -/
def envExt : ExternalEnv :=
  { srcUsdc := some "0xa2", srcTokenMessengerV2 := some "0xtm2",
    arcDomain := arcCctpDomain }

/-- Concrete external to ARC transfer: 10 USDC back to ARC. -/
def pExt : ExternalParams :=
  { amount := 10000000, sender := "0xs", recipient := "0xr",
    memo := "", now := 1700000000 }

/-- Fully successful external to ARC world with a zero allowance. -/
def extWorldOk : ExternalWorld :=
  { balance := Except.ok 100000000, allowance := Except.ok 0,
    approveSubmit := Except.ok "0xa", approveReceipt := Except.ok ReceiptStatus.success,
    burnSubmit := Except.ok "0xb", burnReceipt := Except.ok ReceiptStatus.success }

/-- Same world with an allowance already covering the amount. -/
def extWorldAllowanceOk : ExternalWorld :=
  { extWorldOk with allowance := Except.ok 15000000 }

/-- Same world with a burn transaction that reverts on-chain. -/
def extWorldBurnReverted : ExternalWorld :=
  { extWorldOk with burnReceipt := Except.ok ReceiptStatus.reverted }

/-- Concrete switch context: target Base Sepolia (84532) with RPC and
explorer URLs configured. -/
def netEnvBase : NetEnv :=
  { srcChainIdResolved := 84532, hasInjectedWallet := true,
    sourceLabel := "Base Sepolia", rpcUrl := some "https://rpc.example",
    explorerUrl := some "https://explorer.example" }

/-- Wallet that rejects the switch with code 4902 (chain unknown). -/
def walletUnknownChain : WalletWorld :=
  { switchResult := Except.error { code := some 4902, msg := "Unrecognized chain" },
    addResult := Except.ok () }

/-- Wallet that accepts the switch. -/
def walletSwitchOk : WalletWorld :=
  { switchResult := Except.ok (), addResult := Except.ok () }

/-- Transfer too small for the fee constraints: 0.1 USDC. -/
def pHomeSmall : HomeParams := { pHome with amount := 100000 }

/-- External transfer too small for the fee constraints: 0.1 USDC. -/
def pExtSmall : ExternalParams := { pExt with amount := 100000 }

/-- A successful computeMaxFee result is at most amount - 1: the source
throws whenever maxFeeToUse exceeds that cap. -/
theorem computeMaxFee_ok_lt (cfg : FeeConfig) (amount : Int) (d : Nat) (m : Int)
    (h : computeMaxFee cfg amount d = Except.ok m) : m < amount := by
  simp only [computeMaxFee] at h
  split at h
  · cases h
  · next h2 =>
    cases h
    omega

/-- The protocol-minimum adjustment preserves the strict amount bound:
both the untouched fee and the clamp to amount - 1 are below amount. -/
theorem adjustForProtocolMin_lt (amount maxFee : Int) (mc : Except String Int)
    (h : maxFee < amount) : adjustForProtocolMin amount maxFee mc < amount := by
  cases mc with
  | error e => simpa [adjustForProtocolMin] using h
  | ok mp =>
    simp only [adjustForProtocolMin]
    by_cases h1 : mp > maxFee
    · rw [if_pos h1]
      by_cases h2 : mp * 110 / 100 > amount - 1
      · rw [if_pos h2]
        omega
      · rw [if_neg h2]
        omega
    · rw [if_neg h1]
      exact h

/-- The quoted ARC to external fee fails exactly when computeMaxFee
fails: the final maxFee >= amount guard can never fire after a
successful computeMaxFee since the adjustment preserves the bound. -/
theorem quoteHomeToExternal_error_iff (cfg : FeeConfig) (amount : Int) (d : Nat)
    (mc : Except String Int) (e : String) :
    quoteHomeToExternal cfg amount d mc = Except.error e ↔
      computeMaxFee cfg amount d = Except.error e := by
  unfold quoteHomeToExternal
  cases hc : computeMaxFee cfg amount d with
  | error e2 => simp
  | ok m =>
    have hlt := adjustForProtocolMin_lt amount m mc (computeMaxFee_ok_lt cfg amount d m hc)
    have hneg : ¬ (adjustForProtocolMin amount m mc ≥ amount) := by omega
    dsimp only
    rw [if_neg hneg]
    simp

/-- The external to ARC quote fails exactly when computeMaxFee fails. -/
theorem quoteExternalToHome_error_iff (cfg : FeeConfig) (amount : Int) (d : Nat)
    (e : String) :
    quoteExternalToHome cfg amount d = Except.error e ↔
      computeMaxFee cfg amount d = Except.error e := by
  unfold quoteExternalToHome
  cases hc : computeMaxFee cfg amount d with
  | error e2 => simp
  | ok m =>
    have hlt := computeMaxFee_ok_lt cfg amount d m hc
    have hneg : ¬ (m ≥ amount) := by omega
    dsimp only
    rw [if_neg hneg]

/-- A successful ARC to external quote is strictly below the amount. -/
theorem quoteHomeToExternal_ok_lt (cfg : FeeConfig) (amount : Int) (d : Nat)
    (mc : Except String Int) (f : Int)
    (h : quoteHomeToExternal cfg amount d mc = Except.ok f) : f < amount := by
  unfold quoteHomeToExternal at h
  cases hc : computeMaxFee cfg amount d with
  | error e2 =>
    rw [hc] at h
    cases h
  | ok m =>
    rw [hc] at h
    have hlt := adjustForProtocolMin_lt amount m mc (computeMaxFee_ok_lt cfg amount d m hc)
    dsimp only at h
    rw [if_neg (show ¬ (adjustForProtocolMin amount m mc ≥ amount) from by omega)] at h
    cases h
    exact hlt

/-- A successful external to ARC quote is strictly below the amount. -/
theorem quoteExternalToHome_ok_lt (cfg : FeeConfig) (amount : Int) (d : Nat) (f : Int)
    (h : quoteExternalToHome cfg amount d = Except.ok f) : f < amount := by
  unfold quoteExternalToHome at h
  cases hc : computeMaxFee cfg amount d with
  | error e2 =>
    rw [hc] at h
    cases h
  | ok m =>
    rw [hc] at h
    have hlt := computeMaxFee_ok_lt cfg amount d m hc
    dsimp only at h
    rw [if_neg (show ¬ (m ≥ amount) from by omega)] at h
    cases h
    exact hlt

/-- A failed ARC to external quote means the executor issues no
transaction submission and the run ends in an error. -/
theorem executeHome_noSubmission_of_quote_error (cfg : FeeConfig) (p : HomeParams)
    (w : HomeWorld) (h0 : List HistoryRecord) (e : String)
    (h : quoteHomeToExternal cfg p.amount p.destDomain w.minFeeCall = Except.error e) :
    (executeHomeToExternal cfg p w h0).trace.countP Action.isSubmission = 0 ∧
    ∃ e2, (executeHomeToExternal cfg p w h0).result = Except.error e2 := by
  rw [quoteHomeToExternal_error_iff] at h
  unfold executeHomeToExternal
  cases hrc : w.routerConfig with
  | error e3 =>
    exact ⟨rfl, ⟨e3, rfl⟩⟩
  | ok rc =>
    rw [h]
    exact ⟨rfl, ⟨e, rfl⟩⟩

/-- A failed external to ARC quote means the executor issues no
transaction submission and the run ends in an error. -/
theorem executeExternal_noSubmission_of_quote_error (cfg : FeeConfig)
    (env : ExternalEnv) (p : ExternalParams) (w : ExternalWorld)
    (h0 : List HistoryRecord) (e : String)
    (h : quoteExternalToHome cfg p.amount env.arcDomain = Except.error e) :
    (executeExternalToHome cfg env p w h0).trace.countP Action.isSubmission = 0 ∧
    ∃ e2, (executeExternalToHome cfg env p w h0).result = Except.error e2 := by
  unfold executeExternalToHome
  cases henv1 : env.srcUsdc with
  | none => exact ⟨rfl, ⟨"Missing source chain USDC address", rfl⟩⟩
  | some u =>
    cases henv2 : env.srcTokenMessengerV2 with
    | none => exact ⟨rfl, ⟨"Missing source chain TokenMessengerV2 address", rfl⟩⟩
    | some msgr =>
      rw [h]
      exact ⟨rfl, ⟨e, rfl⟩⟩

/-- C1: for every transfer request, whenever the fee computation succeeds
the resulting effectiveMaxFee is strictly less than the transfer amount
(in both directions); and whenever no such fee exists the fee computation
fails and the executor submits no transaction at all, ending in an
error. -/
theorem effectiveMaxFee_lt_amount_or_fail_before_any_tx :
    (∀ (cfg : FeeConfig) (amount : Int) (d : Nat) (mc : Except String Int) (f : Int),
       quoteHomeToExternal cfg amount d mc = Except.ok f → f < amount) ∧
    (∀ (cfg : FeeConfig) (amount : Int) (d : Nat) (f : Int),
       quoteExternalToHome cfg amount d = Except.ok f → f < amount) ∧
    (∀ (cfg : FeeConfig) (p : HomeParams) (w : HomeWorld) (h0 : List HistoryRecord)
       (e : String),
       quoteHomeToExternal cfg p.amount p.destDomain w.minFeeCall = Except.error e →
       (executeHomeToExternal cfg p w h0).trace.countP Action.isSubmission = 0 ∧
       ∃ e2, (executeHomeToExternal cfg p w h0).result = Except.error e2) ∧
    (∀ (cfg : FeeConfig) (env : ExternalEnv) (p : ExternalParams) (w : ExternalWorld)
       (h0 : List HistoryRecord) (e : String),
       quoteExternalToHome cfg p.amount env.arcDomain = Except.error e →
       (executeExternalToHome cfg env p w h0).trace.countP Action.isSubmission = 0 ∧
       ∃ e2, (executeExternalToHome cfg env p w h0).result = Except.error e2) := by
  refine ⟨quoteHomeToExternal_ok_lt, quoteExternalToHome_ok_lt, ?_, ?_⟩
  · intro cfg p w h0 e h
    exact executeHome_noSubmission_of_quote_error cfg p w h0 e h
  · intro cfg env p w h0 e h
    exact executeExternal_noSubmission_of_quote_error cfg env p w h0 e h

/-- Witness for C1 at concrete inputs: a 10 USDC quote succeeds with fee
0.5 USDC in both directions, and a 0.1 USDC request fails its quote with
no transaction submitted in either direction. -/
theorem effectiveMaxFee_lt_amount_or_fail_before_any_tx_witness :
    ((500000 : Int) < 10000000) ∧ ((500000 : Int) < 10000000) ∧
    ((executeHomeToExternal cfg500 pHomeSmall homeWorldOk []).trace.countP
        Action.isSubmission = 0 ∧
      ∃ e2, (executeHomeToExternal cfg500 pHomeSmall homeWorldOk []).result =
        Except.error e2) ∧
    ((executeExternalToHome cfg500 envExt pExtSmall extWorldOk []).trace.countP
        Action.isSubmission = 0 ∧
      ∃ e2, (executeExternalToHome cfg500 envExt pExtSmall extWorldOk []).result =
        Except.error e2) := by
  refine ⟨?_, ?_, ?_, ?_⟩
  · exact effectiveMaxFee_lt_amount_or_fail_before_any_tx.1 cfg500 10000000 6
      (Except.ok 50000) 500000 (by decide)
  · exact effectiveMaxFee_lt_amount_or_fail_before_any_tx.2.1 cfg500 10000000
      arcCctpDomain 500000 (by decide)
  · exact effectiveMaxFee_lt_amount_or_fail_before_any_tx.2.2.1 cfg500 pHomeSmall
      homeWorldOk [] "Amount is too small for maxFee constraints." (by decide)
  · exact effectiveMaxFee_lt_amount_or_fail_before_any_tx.2.2.2 cfg500 envExt
      pExtSmall extWorldOk [] "Amount is too small for maxFee constraints." (by decide)

/-- Counterexample to C2 as stated: with a configured global cap of 0.5
USDC, a 10 USDC transfer and a protocol minimum of 1 USDC, the bumped fee
1.1 USDC is returned unclamped, exceeding the global cap that the claim
says is re-applied. -/
theorem protocolMinBump_capReapplied_cex :
    quoteHomeToExternal { maxFeeBps := 500, maxFeeUsdcCap := 500000 } 10000000 6
        (Except.ok 1000000) = Except.ok 1100000 ∧
    ¬ ((1100000 : Int) ≤ (500000 : Int)) := by
  exact ⟨by decide, by decide⟩

/-- C2 amended: when the protocol-reported minimum exceeds the computed
candidate, the final quote is min(protocolMin * 110 / 100, amount - 1) —
the bump is clamped to amount - 1 only, and the configured global fee cap
is not re-applied. -/
theorem protocolMinBump_amended :
    ∀ (cfg : FeeConfig) (amount : Int) (d : Nat) (minFee m : Int),
      computeMaxFee cfg amount d = Except.ok m →
      minFee > m →
      quoteHomeToExternal cfg amount d (Except.ok minFee) =
        Except.ok (min (minFee * 110 / 100) (amount - 1)) := by
  intro cfg amount d minFee m hc hgt
  have hlt := computeMaxFee_ok_lt cfg amount d m hc
  unfold quoteHomeToExternal
  rw [hc]
  dsimp only
  have hadj : adjustForProtocolMin amount m (Except.ok minFee) =
      min (minFee * 110 / 100) (amount - 1) := by
    simp only [adjustForProtocolMin]
    rw [if_pos hgt]
    by_cases h2 : minFee * 110 / 100 > amount - 1
    · rw [if_pos h2]
      omega
    · rw [if_neg h2]
      omega
  rw [hadj]
  rw [if_neg (show ¬ (min (minFee * 110 / 100) (amount - 1) ≥ amount) from by omega)]

/-- Witness for the amended C2 at the counterexample's inputs. -/
theorem protocolMinBump_amended_witness :
    computeMaxFee { maxFeeBps := 500, maxFeeUsdcCap := 500000 } 10000000 6 =
        Except.ok 500000 ∧
    (1000000 : Int) > 500000 ∧
    quoteHomeToExternal { maxFeeBps := 500, maxFeeUsdcCap := 500000 } 10000000 6
        (Except.ok 1000000) =
      Except.ok (min ((1000000 : Int) * 110 / 100) ((10000000 : Int) - 1)) := by
  refine ⟨by decide, by decide, ?_⟩
  exact protocolMinBump_amended { maxFeeBps := 500, maxFeeUsdcCap := 500000 } 10000000 6
    1000000 500000 (by decide) (by decide)

/-- Counterexample to C3 as stated: for a 0.30 USDC transfer with 500 bps,
floor 0.20 USDC and protocol minimum 0.28 USDC, the quote does not fail:
it succeeds with 0.299999 USDC. -/
theorem smallTransferBump_fails_cex :
    quoteHomeToExternal cfg500 300000 6 (Except.ok 280000) = Except.ok 299999 := by
  decide

/-- C3 amended: in that scenario the candidate 0.20 is bumped to
0.28 * 1.10 = 0.308 USDC, which is at least the amount, so it is clamped
to amount - 1 = 0.299999 USDC and the request proceeds with that
effectiveMaxFee rather than failing with FeeConstraintError. -/
theorem smallTransferBump_amended :
    computeMaxFee cfg500 300000 6 = Except.ok 200000 ∧
    ((280000 : Int) * 110 / 100 = 308000) ∧ ((308000 : Int) ≥ 300000) ∧
    adjustForProtocolMin 300000 200000 (Except.ok 280000) = 299999 ∧
    quoteHomeToExternal cfg500 300000 6 (Except.ok 280000) = Except.ok 299999 ∧
    ((299999 : Int) < 300000) := by
  decide

/-- Counterexample to C4 as stated: the floor for the home-chain
destination (domain 26) is not strictly higher than the floor for
external destinations — it is lower than the floor for destination
domain 0 and equal to the floor for destination domain 6. -/
theorem homeFloor_higher_cex :
    ¬ (minForwardFee arcCctpDomain > minForwardFee 0) ∧
    ¬ (minForwardFee arcCctpDomain > minForwardFee 6) := by
  decide

/-- C4 amended: the fixed per-destination floor is keyed on destination
domain 0 (1.25 USDC there, 0.20 USDC everywhere else); the home-chain
destination (domain 26) gets the same 0.20 USDC floor as every non-zero
external domain, strictly lower than the domain-0 floor. -/
theorem destinationFloor_amended :
    minForwardFee 0 = 1250000 ∧
    (∀ d : Nat, d ≠ 0 → minForwardFee d = 200000) ∧
    minForwardFee arcCctpDomain = 200000 ∧
    minForwardFee arcCctpDomain < minForwardFee 0 := by
  refine ⟨by decide, ?_, by decide, by decide⟩
  intro d hd
  simp [minForwardFee, hd]

/-- Witness for the amended C4 instantiated at external domain 6. -/
theorem destinationFloor_amended_witness :
    (6 : Nat) ≠ 0 ∧ minForwardFee 6 = 200000 := by
  exact ⟨by decide, destinationFloor_amended.2.1 6 (by decide)⟩

set_option maxHeartbeats 2000000

/-- C5: every ARC to external execution performs its on-chain steps in
the fixed order router-config read, balance read (against
amount + serviceFee), allowance read, service-fee transfer, burn
submission — the step-kind projection of every possible trace is a
prefix of that sequence, so a failure at any step prevents every later
step and no step runs twice; moreover a burn is submitted only after the
service-fee transfer submission and its receipt wait both returned
successfully, with the fee transfer strictly before the burn in the
trace. -/
theorem homeOnChainStepOrder :
    ∀ (cfg : FeeConfig) (p : HomeParams) (w : HomeWorld) (h0 : List HistoryRecord),
      ((executeHomeToExternal cfg p w h0).trace.filterMap Action.stepKind <+:
        [StepKind.configRead, StepKind.balanceRead, StepKind.allowanceRead,
         StepKind.feeTransfer, StepKind.burn]) ∧
      ((∃ a ∈ (executeHomeToExternal cfg p w h0).trace, Action.isBurn a = true) →
        (∃ tx, w.feeSubmit = Except.ok tx) ∧
        (∃ st, w.feeReceipt = Except.ok st) ∧
        ((executeHomeToExternal cfg p w h0).trace.takeWhile
            (fun a => ! Action.isBurn a)).countP Action.isFeeTransfer = 1) := by
  intro cfg p w h0
  refine ⟨?_, ?_⟩
  · unfold executeHomeToExternal feePhaseHome burnPhaseHome
    repeat' (first | split | dsimp only)
    all_goals simp [Action.stepKind]
  · unfold executeHomeToExternal feePhaseHome burnPhaseHome
    repeat' (first | split | dsimp only)
    all_goals intro hburn
    all_goals first
      | (simp [Action.isBurn] at hburn; done)
      | refine ⟨⟨_, by assumption⟩, ⟨_, by assumption⟩, rfl⟩

/-- Witness for C5: the fully successful 10 USDC run submits a burn, its
service-fee submission and receipt wait succeeded, and the fee transfer
precedes the burn. -/
theorem homeOnChainStepOrder_witness :
    ((executeHomeToExternal cfg500 pHome homeWorldOk []).trace.filterMap
        Action.stepKind <+:
      [StepKind.configRead, StepKind.balanceRead, StepKind.allowanceRead,
       StepKind.feeTransfer, StepKind.burn]) ∧
    (∃ tx, homeWorldOk.feeSubmit = Except.ok tx) ∧
    (∃ st, homeWorldOk.feeReceipt = Except.ok st) ∧
    ((executeHomeToExternal cfg500 pHome homeWorldOk []).trace.takeWhile
        (fun a => ! Action.isBurn a)).countP Action.isFeeTransfer = 1 := by
  exact ⟨(homeOnChainStepOrder cfg500 pHome homeWorldOk []).1,
    (homeOnChainStepOrder cfg500 pHome homeWorldOk []).2 (by decide)⟩

/-- C6: in either direction, once execution reaches the allowance check,
an approve transaction is submitted if and only if the read allowance is
below the transfer amount — exactly one approve(messenger, amount) when
below, zero approves when the allowance already covers the amount — and
the approve (when submitted) occurs strictly before any burn
submission. -/
theorem approveIffAllowanceInsufficient :
    (∀ (cfg : FeeConfig) (p : HomeParams) (w : HomeWorld) (h0 : List HistoryRecord)
       (rc : RouterConfig) (m bal a : Int),
       w.routerConfig = Except.ok rc →
       computeMaxFee cfg p.amount p.destDomain = Except.ok m →
       w.balance = Except.ok bal →
       ¬ (bal < p.amount + rc.serviceFee) →
       w.allowance = Except.ok a →
       ((executeHomeToExternal cfg p w h0).trace.countP Action.isApprove =
         if a < p.amount then 1 else 0) ∧
       (a < p.amount →
         Action.submitApprove rc.usdc rc.tokenMessengerV2 p.amount ∈
           (executeHomeToExternal cfg p w h0).trace.takeWhile
             (fun x => ! Action.isBurn x))) ∧
    (∀ (cfg : FeeConfig) (env : ExternalEnv) (p : ExternalParams)
       (w : ExternalWorld) (h0 : List HistoryRecord) (u msgr : Addr) (f bal a : Int),
       env.srcUsdc = some u →
       env.srcTokenMessengerV2 = some msgr →
       quoteExternalToHome cfg p.amount env.arcDomain = Except.ok f →
       w.balance = Except.ok bal →
       ¬ (bal < p.amount) →
       w.allowance = Except.ok a →
       ((executeExternalToHome cfg env p w h0).trace.countP Action.isApprove =
         if a < p.amount then 1 else 0) ∧
       (a < p.amount →
         Action.submitApprove u msgr p.amount ∈
           (executeExternalToHome cfg env p w h0).trace.takeWhile
             (fun x => ! Action.isBurn x))) := by
  constructor
  · intro cfg p w h0 rc m bal a hrc hcm hbal hge hal
    have hata := adjustForProtocolMin_lt p.amount m w.minFeeCall
      (computeMaxFee_ok_lt cfg p.amount p.destDomain m hcm)
    unfold executeHomeToExternal feePhaseHome burnPhaseHome
    rw [hrc]
    dsimp only
    rw [hcm]
    dsimp only
    rw [if_neg (show ¬ (adjustForProtocolMin p.amount m w.minFeeCall ≥ p.amount) from
      by omega)]
    rw [hbal]
    dsimp only
    rw [if_neg hge, hal]
    dsimp only
    repeat' (first | split | dsimp only)
    all_goals simp_all [Action.isApprove, Action.isBurn, List.takeWhile]
  · intro cfg env p w h0 u msgr f bal a henv1 henv2 hq hbal hge hal
    unfold executeExternalToHome burnPhaseExternal
    rw [henv1]
    dsimp only
    rw [henv2]
    dsimp only
    rw [hq]
    dsimp only
    rw [hbal]
    dsimp only
    rw [if_neg hge, hal]
    dsimp only
    repeat' (first | split | dsimp only)
    all_goals simp_all [Action.isApprove, Action.isBurn, List.takeWhile]

/-- Witness for C6: the 10 USDC run with allowance 0 submits exactly one
approve (before the burn), and the run with allowance 15 USDC submits
zero approves, in both directions. -/
theorem approveIffAllowanceInsufficient_witness :
    (executeHomeToExternal cfg500 pHome homeWorldOk []).trace.countP
        Action.isApprove = 1 ∧
    Action.submitApprove rcW.usdc rcW.tokenMessengerV2 pHome.amount ∈
      (executeHomeToExternal cfg500 pHome homeWorldOk []).trace.takeWhile
        (fun x => ! Action.isBurn x) ∧
    (executeHomeToExternal cfg500 pHome homeWorldAllowanceOk []).trace.countP
        Action.isApprove = 0 ∧
    (executeExternalToHome cfg500 envExt pExt extWorldOk []).trace.countP
        Action.isApprove = 1 ∧
    (executeExternalToHome cfg500 envExt pExt extWorldAllowanceOk []).trace.countP
        Action.isApprove = 0 := by
  have h1 := approveIffAllowanceInsufficient.1 cfg500 pHome homeWorldOk [] rcW
    500000 100000000 0 (by decide) (by decide) (by decide) (by decide) (by decide)
  have h2 := approveIffAllowanceInsufficient.1 cfg500 pHome homeWorldAllowanceOk []
    rcW 500000 100000000 15000000 (by decide) (by decide) (by decide) (by decide)
    (by decide)
  have h3 := approveIffAllowanceInsufficient.2 cfg500 envExt pExt extWorldOk []
    "0xa2" "0xtm2" 500000 100000000 0 (by decide) (by decide) (by decide)
    (by decide) (by decide) (by decide)
  have h4 := approveIffAllowanceInsufficient.2 cfg500 envExt pExt
    extWorldAllowanceOk [] "0xa2" "0xtm2" 500000 100000000 15000000 (by decide)
    (by decide) (by decide) (by decide) (by decide) (by decide)
  refine ⟨?_, ?_, ?_, ?_, ?_⟩
  · have hx := h1.1
    rw [if_pos (show (0 : Int) < pHome.amount from by decide)] at hx
    exact hx
  · exact h1.2 (by decide)
  · have hx := h2.1
    rw [if_neg (show ¬ ((15000000 : Int) < pHome.amount) from by decide)] at hx
    exact hx
  · have hx := h3.1
    rw [if_pos (show (0 : Int) < pExt.amount from by decide)] at hx
    exact hx
  · have hx := h4.1
    rw [if_neg (show ¬ ((15000000 : Int) < pExt.amount) from by decide)] at hx
    exact hx

/-- C8: in either direction, the history list changes only when the burn
receipt reports success, and then exactly by prepending one record; any
run that ends in an error (validation or network prelude, configuration,
quote, balance, allowance, approve, fee transfer, burn submission, or a
reverted burn) leaves the history untouched. -/
theorem historyAppendOnlyAfterBurnSuccess :
    (∀ (cfg : FeeConfig) (p : HomeParams) (pre : Except String Unit)
       (w : HomeWorld) (h0 : List HistoryRecord),
       ((onBridgeHome cfg p pre w h0).history ≠ h0 →
         w.burnReceipt = Except.ok ReceiptStatus.success ∧
         ∃ r, (onBridgeHome cfg p pre w h0).history = r :: h0) ∧
       (∀ e, (onBridgeHome cfg p pre w h0).result = Except.error e →
         (onBridgeHome cfg p pre w h0).history = h0)) ∧
    (∀ (cfg : FeeConfig) (env : ExternalEnv) (p : ExternalParams)
       (pre : Except String Unit) (w : ExternalWorld) (h0 : List HistoryRecord),
       ((onBridgeExternal cfg env p pre w h0).history ≠ h0 →
         w.burnReceipt = Except.ok ReceiptStatus.success ∧
         ∃ r, (onBridgeExternal cfg env p pre w h0).history = r :: h0) ∧
       (∀ e, (onBridgeExternal cfg env p pre w h0).result = Except.error e →
         (onBridgeExternal cfg env p pre w h0).history = h0)) := by
  constructor
  · intro cfg p pre w h0
    unfold onBridgeHome executeHomeToExternal feePhaseHome burnPhaseHome
    repeat' (first | split | dsimp only)
    all_goals simp_all
  · intro cfg env p pre w h0
    unfold onBridgeExternal executeExternalToHome burnPhaseExternal
    repeat' (first | split | dsimp only)
    all_goals simp_all

/-- Witness for C8: the successful runs append exactly one record while
the burn-reverted runs leave the empty history unchanged, in both
directions. -/
theorem historyAppendOnlyAfterBurnSuccess_witness :
    (homeWorldOk.burnReceipt = Except.ok ReceiptStatus.success ∧
      ∃ r, (onBridgeHome cfg500 pHome (Except.ok ()) homeWorldOk []).history =
        r :: []) ∧
    (onBridgeHome cfg500 pHome (Except.ok ()) homeWorldBurnReverted []).history =
      [] ∧
    (extWorldOk.burnReceipt = Except.ok ReceiptStatus.success ∧
      ∃ r, (onBridgeExternal cfg500 envExt pExt (Except.ok ()) extWorldOk
        []).history = r :: []) ∧
    (onBridgeExternal cfg500 envExt pExt (Except.ok ()) extWorldBurnReverted
      []).history = [] := by
  refine ⟨?_, ?_, ?_, ?_⟩
  · exact (historyAppendOnlyAfterBurnSuccess.1 cfg500 pHome (Except.ok ())
      homeWorldOk []).1 (by decide)
  · exact (historyAppendOnlyAfterBurnSuccess.1 cfg500 pHome (Except.ok ())
      homeWorldBurnReverted []).2 "burn+message transaction reverted" (by decide)
  · exact (historyAppendOnlyAfterBurnSuccess.2 cfg500 envExt pExt (Except.ok ())
      extWorldOk []).1 (by decide)
  · exact (historyAppendOnlyAfterBurnSuccess.2 cfg500 envExt pExt (Except.ok ())
      extWorldBurnReverted []).2 "burn+message transaction reverted" (by decide)

/-- C10: a throwing getMinFeeAmount view call is silently swallowed: the
adjustment returns maxFee unchanged, the full quote then equals the plain
computeMaxFee result, and the executor continues past the fee stage — the
balance read is reached and any burn submission carries the unadjusted
percentage/floor/cap-derived fee — rather than failing the transfer. -/
theorem minFeeErrorSwallowed :
    (∀ (amount maxFee : Int) (e : String),
        adjustForProtocolMin amount maxFee (Except.error e) = maxFee) ∧
    (∀ (cfg : FeeConfig) (amount : Int) (d : Nat) (e : String),
        quoteHomeToExternal cfg amount d (Except.error e) =
          computeMaxFee cfg amount d) ∧
    (∀ (cfg : FeeConfig) (p : HomeParams) (w : HomeWorld)
        (h0 : List HistoryRecord) (e : String) (rc : RouterConfig) (m : Int),
        w.routerConfig = Except.ok rc →
        w.minFeeCall = Except.error e →
        computeMaxFee cfg p.amount p.destDomain = Except.ok m →
        Action.readBalance rc.usdc p.sender ∈
          (executeHomeToExternal cfg p w h0).trace ∧
        ∀ a ∈ (executeHomeToExternal cfg p w h0).trace, Action.isBurn a = true →
          a = Action.submitBurn rc.tokenMessengerV2 p.amount p.destDomain
                p.recipient m) := by
  refine ⟨fun amount maxFee e => rfl, ?_, ?_⟩
  · intro cfg amount d e
    unfold quoteHomeToExternal
    cases hc : computeMaxFee cfg amount d with
    | error e2 => rfl
    | ok m =>
      have hlt := computeMaxFee_ok_lt cfg amount d m hc
      have hadj : adjustForProtocolMin amount m (Except.error e) = m := rfl
      dsimp only
      rw [if_neg (show ¬ (adjustForProtocolMin amount m (Except.error e) ≥ amount)
        from by omega), hadj]
  · intro cfg p w h0 e rc m hrc hmf hcm
    have hlt := computeMaxFee_ok_lt cfg p.amount p.destDomain m hcm
    unfold executeHomeToExternal feePhaseHome burnPhaseHome
    rw [hrc]
    dsimp only
    rw [hcm]
    dsimp only
    rw [hmf]
    rw [show adjustForProtocolMin p.amount m (Except.error e) = m from rfl]
    rw [if_neg (show ¬ (m ≥ p.amount) from by omega)]
    repeat' (first | split | dsimp only)
    all_goals simp_all [Action.isBurn]

/-- Witness for C10: in the world whose getMinFeeAmount call throws, the
10 USDC run still reaches the balance read and its burn carries the
0.5 USDC percentage-derived fee. -/
theorem minFeeErrorSwallowed_witness :
    Action.readBalance rcW.usdc pHome.sender ∈
      (executeHomeToExternal cfg500 pHome homeWorldMinFeeErr []).trace ∧
    ∀ a ∈ (executeHomeToExternal cfg500 pHome homeWorldMinFeeErr []).trace,
      Action.isBurn a = true →
      a = Action.submitBurn rcW.tokenMessengerV2 pHome.amount pHome.destDomain
            pHome.recipient 500000 := by
  exact minFeeErrorSwallowed.2.2 cfg500 pHome homeWorldMinFeeErr []
    "minFee revert" rcW 500000 (by decide) (by decide) (by decide)

/-- C9 (evaluation at the failing input): a fully successful external to
ARC transfer appends a history record whose direction field is
ARC_TO_OTHER — the literal written at line 650 of the source — although
this transfer is external-to-home; the OTHER_TO_ARC tag declared by the
BridgeHistoryItem type and consumed by the history renderer is never
written by either branch. -/
theorem externalDirectionRecordedAsArcToOther :
    (executeExternalToHome cfg500 envExt pExt extWorldOk []).history =
      [{ ts := 1700000000, fromAddr := "0xs", toAddr := "0xr", txHash := "0xb",
         memo := none, direction := some Direction.ARC_TO_OTHER }] := by
  decide

/-- Counterexample to C7 as stated: when the wallet reports the target
network unknown (code 4902), ensureOnChain issues the switch request and
the register-network request and then stops — the request list ends after
the add-network request and contains exactly one switch request, so the
switch is never retried. -/
theorem ensureOnChain_retriesSwitch_cex :
    ensureOnChainRun true (some 11155111) netEnvBase walletUnknownChain =
      [WalletReq.switchChain 84532,
       WalletReq.addChain 84532 "Base Sepolia" "ETH" "ETH" 18
         ["https://rpc.example"] (some ["https://explorer.example"])] ∧
    (ensureOnChainRun true (some 11155111) netEnvBase
        walletUnknownChain).countP WalletReq.isSwitch = 1 := by
  exact ⟨by decide, by decide⟩

/-- C7 amended: ensureOnChain issues no wallet request when the wallet is
already on the target network; otherwise (with the chain id resolved, an
injected wallet and a configured RPC URL) it issues exactly one switch
request when the wallet knows the network or rejects for a reason other
than 4902, and on a 4902 rejection it issues the switch request followed
by one register-network request carrying the chain name, the RPC URL, the
native asset ("ETH", 18 decimals) and the optional explorer URL — without
retrying the switch. -/
theorem ensureOnChainRequests_amended :
    (∀ (conn : Bool) (env : NetEnv) (w : WalletWorld),
       ensureOnChainRun conn (some env.srcChainIdResolved) env w = []) ∧
    (∀ (cur : Option Nat) (env : NetEnv) (w : WalletWorld) (r : String),
       env.srcChainIdResolved ≠ 0 →
       env.hasInjectedWallet = true →
       cur ≠ some env.srcChainIdResolved →
       env.rpcUrl = some r →
       (∀ se, w.switchResult = Except.error se → se.code ≠ some 4902) →
       ensureOnChainRun true cur env w =
         [WalletReq.switchChain env.srcChainIdResolved]) ∧
    (∀ (cur : Option Nat) (env : NetEnv) (w : WalletWorld) (r : String)
       (se : WalletErr),
       env.srcChainIdResolved ≠ 0 →
       env.hasInjectedWallet = true →
       cur ≠ some env.srcChainIdResolved →
       env.rpcUrl = some r →
       w.switchResult = Except.error se →
       se.code = some 4902 →
       ensureOnChainRun true cur env w =
         [WalletReq.switchChain env.srcChainIdResolved,
          WalletReq.addChain env.srcChainIdResolved env.sourceLabel "ETH" "ETH" 18
            [r] (env.explorerUrl.map (fun u => [u]))]) := by
  refine ⟨?_, ?_, ?_⟩
  · intro conn env w
    unfold ensureOnChainRun
    split_ifs <;> simp_all
  · intro cur env w r hid hwal hcur hrpc hsw
    unfold ensureOnChainRun switchToSelectedSource
    rw [hrpc]
    repeat' (first | split | dsimp only)
    all_goals first
      | rfl
      | simp_all
  · intro cur env w r se hid hwal hcur hrpc hsw hcode
    unfold ensureOnChainRun switchToSelectedSource
    rw [hrpc, hsw]
    repeat' (first | split | dsimp only)
    all_goals simp_all

/-- Witness for the amended C7: already-on-target issues nothing, an
accepted switch issues exactly one switch request, and the 4902 path
issues the switch and the fully populated add-network request. -/
theorem ensureOnChainRequests_amended_witness :
    ensureOnChainRun true (some 84532) netEnvBase walletSwitchOk = [] ∧
    ensureOnChainRun true (some 11155111) netEnvBase walletSwitchOk =
      [WalletReq.switchChain 84532] ∧
    ensureOnChainRun true (some 11155111) netEnvBase walletUnknownChain =
      [WalletReq.switchChain 84532,
       WalletReq.addChain 84532 "Base Sepolia" "ETH" "ETH" 18
         ["https://rpc.example"] (some ["https://explorer.example"])] := by
  refine ⟨?_, ?_, ?_⟩
  · exact ensureOnChainRequests_amended.1 true netEnvBase walletSwitchOk
  · exact ensureOnChainRequests_amended.2.1 (some 11155111) netEnvBase
      walletSwitchOk "https://rpc.example" (by decide) (by decide) (by decide)
      (by decide) (by intro se h; simp [walletSwitchOk] at h)
  · exact ensureOnChainRequests_amended.2.2 (some 11155111) netEnvBase
      walletUnknownChain "https://rpc.example"
      { code := some 4902, msg := "Unrecognized chain" } (by decide) (by decide)
      (by decide) (by decide) (by decide) (by decide)

end Bridge

end Arc
